import Mathlib

/-!
Shallow embedding of the four command-line launchers of this repository
(chat.py, ocr_meta.py, ocr_tx.py, watch_gpu.py) and proofs of the testable
properties the spec states about them.

Each launcher is modelled as a pure function from
  - the process environment (a partial map from variable name to value),
  - the parsed command line (a record of optional overrides, one per
    argparse flag; the argparse string-to-int conversion of CLI text is
    outside the model, the record holds post-conversion values),
  - the filesystem (a predicate telling which path strings name an
    existing regular file, modelling Path.is_file), and
  - a spawn oracle (what subprocess.run does when handed an argument
    vector),
to an `Outcome`: the exit status of the launcher, the lines it printed to its
own standard output and standard error (one list entry per print call,
embedded newline characters kept), and the argument vector it handed to
subprocess.run, if any.
-/

namespace Launchers

/-- Python whitespace for str.strip(): ASCII whitespace characters
(rare Unicode whitespace is not modelled). -/
def pyIsSpace (c : Char) : Bool :=
  c = ' ' || c = '\t' || c = '\n' || c = '\r' || c = '\x0b' || c = '\x0c'

/-- Python str.strip(): drop leading and trailing whitespace. -/
def pyStrip (s : String) : String :=
  String.mk (((s.toList.dropWhile pyIsSpace).reverse.dropWhile pyIsSpace).reverse)

/-- The numeric value of a decimal digit character. -/
def digitVal? (c : Char) : Option Nat :=
  if '0' ≤ c ∧ c ≤ '9' then some (c.toNat - '0'.toNat) else none

/-- Decimal digit-string accumulation; None on any non-digit. -/
def decDigits? : List Char → Nat → Option Nat
  | [], acc => some acc
  | c :: cs, acc =>
    match digitVal? c with
    | some v => decDigits? cs (acc * 10 + v)
    | none => none

/-- Python int() over the stripped character list: optional sign then
decimal digits. -/
def pyIntChars? : List Char → Option Int
  | [] => none
  | '-' :: rest =>
    if rest = [] then none else (decDigits? rest 0).map (fun n => -(n : Int))
  | '+' :: rest =>
    if rest = [] then none else (decDigits? rest 0).map (fun n => (n : Int))
  | cs => (decDigits? cs 0).map (fun n => (n : Int))

/-- Python int(s) on a string: optional surrounding whitespace, optional
sign, decimal digits; None models the ValueError raised on anything else
(underscore digit separators and non-ASCII digits are not modelled). -/
def pyInt? (s : String) : Option Int :=
  pyIntChars? (pyStrip s).toList

/-- Model of Python str(float(s)), used only for the temperature option.
float() validation and repr normalization (e.g. str(float("1.50")) is
"1.5") are not modelled: the launchers never compute with the
temperature, they only re-stringify it into the argument vector, so a
float value is represented by the text it was parsed from. -/
def pyFloatStr (s : String) : String := s

/-- Python str.lower() on one character (ASCII letters; other scripts
are not modelled). -/
def pyCharLower (c : Char) : Char :=
  if 'A' ≤ c ∧ c ≤ 'Z' then Char.ofNat (c.toNat + 32) else c

/-- Python str.lower(). -/
def pyLower (s : String) : String :=
  String.mk (s.toList.map pyCharLower)

/-- The truth test applied to FLASH_ATTN / MLOCK environment values:
s.lower() in ("1", "true", "yes", "on"). -/
def truthy (s : String) : Bool :=
  ["1", "true", "yes", "on"].contains (pyLower s)

/-- os.environ.get(name, dflt). -/
def envGet (env : String → Option String) (name dflt : String) : String :=
  (env name).getD dflt

/-- DATA_DIR = os.environ.get("DATA_DIR", str(SCRIPT_DIR / "data")).
Path stringification is modelled as plain concatenation with "/" (pathlib
normalization of duplicated separators is not modelled). -/
def dataDir (env : String → Option String) (scriptDir : String) : String :=
  envGet env "DATA_DIR" (scriptDir ++ "/data")

/-- Result of handing an argument vector to subprocess.run: either the
executable was not on the search path (FileNotFoundError), or a child
process ran to completion with a return code and, for capture mode, the
text it wrote to its standard output and standard error. -/
inductive SpawnResult where
  | notFound
  | completed (returncode : Int) (childOut childErr : String)
deriving DecidableEq

/-- Observable outcome of one launcher invocation: its exit status, the
payloads of its print calls to standard output and to standard error (in
order; embedded newline characters kept), and the argument vector passed
to subprocess.run when a spawn was attempted. -/
structure Outcome where
  exitCode : Int
  outLines : List String
  errLines : List String
  spawned : Option (List String)
deriving DecidableEq

/-! ### chat.py -/

/-- Module-level configuration of chat.py after environment resolution:
the DEFAULT_* constants and the executable name. -/
structure ChatDefaults where
  modelPath : String
  port : Int
  ngl : Int
  contextSize : Int
  batchSize : Int
  ubatchSize : Int
  cacheTypeK : String
  cacheTypeV : String
  flashAttn : Bool
  mlock : Bool
  exe : String
deriving DecidableEq

/-- chat.py module load: DEFAULT_PORT = int(os.environ.get("SERVER_PORT",
"4000")) and so on; None models the int() failures that abort the Python
process during import. -/
def chatDefaults? (env : String → Option String) (scriptDir : String) :
    Option ChatDefaults :=
  match pyInt? (envGet env "SERVER_PORT" "4000"),
        pyInt? (envGet env "N_GPU_LAYERS" "48"),
        pyInt? (envGet env "CONTEXT_SIZE" "8192"),
        pyInt? (envGet env "BATCH_SIZE" "512"),
        pyInt? (envGet env "UBATCH_SIZE" "128") with
  | some port, some ngl, some ctx, some b, some ub =>
      some
        { modelPath := envGet env "MODEL_PATH"
            (dataDir env scriptDir ++ "/gemma-3-4b-it-Q5_K_M.gguf")
          port := port
          ngl := ngl
          contextSize := ctx
          batchSize := b
          ubatchSize := ub
          cacheTypeK := envGet env "CACHE_TYPE_K" "q5_1"
          cacheTypeV := envGet env "CACHE_TYPE_V" "q5_1"
          flashAttn := truthy (envGet env "FLASH_ATTN" "1")
          mlock := truthy (envGet env "MLOCK" "1")
          exe := envGet env "LLAMA_SERVER_EXECUTABLE" "llama-server" }
  | _, _, _, _, _ => none

/-- Parsed command line of chat.py: one optional override per argparse
flag. flashAttn is some true after -fa, some false after --no-flash-attn
(last occurrence wins), none when neither was given; likewise mlock. -/
structure ChatCli where
  model : Option String
  port : Option Int
  ngl : Option Int
  contextSize : Option Int
  batchSize : Option Int
  ubatchSize : Option Int
  cacheTypeK : Option String
  cacheTypeV : Option String
  flashAttn : Option Bool
  mlock : Option Bool
deriving DecidableEq

/-- Resolved options of one chat.py invocation (argparse Namespace). -/
structure ChatArgs where
  model : String
  port : Int
  ngl : Int
  contextSize : Int
  batchSize : Int
  ubatchSize : Int
  cacheTypeK : String
  cacheTypeV : String
  flashAttn : Bool
  mlock : Bool
deriving DecidableEq

/-- argparse resolution for chat.py: each option takes the CLI value when
given, else the module-level default. -/
def resolveChat (d : ChatDefaults) (c : ChatCli) : ChatArgs :=
  { model := c.model.getD d.modelPath
    port := c.port.getD d.port
    ngl := c.ngl.getD d.ngl
    contextSize := c.contextSize.getD d.contextSize
    batchSize := c.batchSize.getD d.batchSize
    ubatchSize := c.ubatchSize.getD d.ubatchSize
    cacheTypeK := c.cacheTypeK.getD d.cacheTypeK
    cacheTypeV := c.cacheTypeV.getD d.cacheTypeV
    flashAttn := c.flashAttn.getD d.flashAttn
    mlock := c.mlock.getD d.mlock }

/-- The fixed part of the chat.py command list (lines 121-139). -/
def chatCommandBase (exe : String) (a : ChatArgs) : List String :=
  [exe, "-m", a.model, "--port", toString a.port, "-ngl", toString a.ngl,
   "-c", toString a.contextSize, "-b", toString a.batchSize,
   "-ub", toString a.ubatchSize, "-ctk", a.cacheTypeK, "-ctv", a.cacheTypeV]

/-- The conditional toggle appends of chat.py (lines 141-144). -/
def chatToggles (a : ChatArgs) : List String :=
  (if a.flashAttn then ["-fa"] else []) ++ (if a.mlock then ["--mlock"] else [])

/-- The full argument vector chat.py hands to subprocess.run. -/
def chatCommand (exe : String) (a : ChatArgs) : List String :=
  chatCommandBase exe a ++ chatToggles a

/-- chat.py main() after argparse: validate the model path, build the
command, spawn it with inherited stdio, and relay the child return
code (chat.py lines 117-163). -/
def chatRun (d : ChatDefaults) (c : ChatCli) (fs : String → Bool)
    (spawn : List String → SpawnResult) : Outcome :=
  let a := resolveChat d c
  if fs a.model = false then
    { exitCode := 1, outLines := [],
      errLines := ["Error: Model file not found at " ++ a.model],
      spawned := none }
  else
    let command := chatCommand d.exe a
    match spawn command with
    | .completed code _ _ =>
        { exitCode := code
          outLines := ["Starting server: " ++ String.intercalate " " command,
                       "\nServer exited with code: " ++ toString code]
          errLines := []
          spawned := some command }
    | .notFound =>
        { exitCode := 1
          outLines := ["Starting server: " ++ String.intercalate " " command]
          errLines := ["Error: \x27" ++ d.exe ++ "\x27 command not found.",
                       "Please ensure llama.cpp is built and its binaries are in your PATH."]
          spawned := some command }

/-! ### ocr_meta.py and ocr_tx.py

The two OCR launchers are line-for-line identical except for the
N_PREDICT built-in default and the prompt (its environment variable name
and its built-in default text), so they are embedded as one parametrized
module instantiated twice. -/

/-- The built-in default of METADATA_PROMPT in ocr_meta.py. -/
def metadataPromptDefault : String :=
  "Extract metadata from the bank statement image into a single JSON object. Output *only* the JSON object, nothing else.\n\nRequired JSON keys and extraction rules:\n*   `bank_name`: (string) Name/logo of the bank.\n*   `account_holder_name`: (string) Full name of the primary account holder only. Exclude titles (Mr., Miss) or address details if present on the same line.\n*   `account_holder_address`: (string or null) Full address. Use `null` if not found.\n*   `account_number`: (string) Account identifier (often labeled \"ACCOUNT NO\").\n*   `account_type`: (string) Account type description (e.g., \"SAVINGS ACCOUNT GENERAL\").\n*   `currency`: (string) Currency code (e.g., \"LKR\").\n*   `statement_date`: (string) The \"as at\" or statement generation date, **formatted strictly as YYYY-MM-DD**. Infer the year if necessary based on context.\n*   `total_debits`: (string) Total debit amount from the summary/total row. Extract as text.\n*   `total_credits`: (string) Total credit amount from the summary/total row. Extract as text.\n*   `final_balance`: (string) Final account balance (often labeled \"BALANCE AS AT DATE\"). Extract as text.\n\nEnsure the output is a single, valid JSON object starting with `\x7b` and ending with `\x7d`."

/-- The built-in default of TRANSACTIONS_PROMPT in ocr_tx.py. -/
def transactionsPromptDefault : String :=
  "Extract transaction rows from the bank statement image. Output *only* a single JSON array of arrays, nothing else.\n\nIdentify the main transaction table data rows (between the header row and the \x27TOTAL\x27 row).\n\nFor each data row, create an inner array containing exactly 6 string elements. These elements **must** correspond to the table columns in this order:\n*   [0]: Date (Extract text exactly as seen, e.g., \"01.02.25\" or \"28/03\").\n*   [1]: Reference Number (Use \"\" if blank/not applicable).\n*   [2]: Particulars/Description.\n*   [3]: Debits Amount (Use \"\" if blank. Extract as text).\n*   [4]: Credits Amount (Use \"\" if blank. Extract as text).\n*   [5]: Running Balance (Extract as text).\n\nCRITICAL: The output must be only the JSON array, starting with `[` and ending with `]`. Each inner array must have exactly 6 string elements in the specified order. Do not include header or total rows."

/-- Module-level configuration of an OCR launcher after environment
resolution: the DEFAULT_* constants, the executable name and the prompt. -/
structure OcrDefaults where
  modelPath : String
  mmprojPath : String
  imagePath : String
  ngl : Int
  threads : Int
  contextSize : Int
  nPredict : Int
  temp : String
  cacheTypeK : String
  cacheTypeV : String
  flashAttn : Bool
  mlock : Bool
  exe : String
  prompt : String
deriving DecidableEq

/-- OCR module load (ocr_meta.py / ocr_tx.py lines 8-53), parametrized by
the N_PREDICT built-in default and the prompt variable name and built-in
default; None models the int() failures that abort the Python process
during import. -/
def ocrDefaults? (env : String → Option String) (scriptDir : String)
    (nPredictDflt : String) (promptVar promptDflt : String) :
    Option OcrDefaults :=
  match pyInt? (envGet env "N_GPU_LAYERS" "34"),
        pyInt? (envGet env "THREADS" "3"),
        pyInt? (envGet env "CONTEXT_SIZE" "16384"),
        pyInt? (envGet env "N_PREDICT" nPredictDflt) with
  | some ngl, some threads, some ctx, some np =>
      some
        { modelPath := envGet env "MODEL_PATH"
            (dataDir env scriptDir ++ "/gemma-3-4b-it-Q5_K_M.gguf")
          mmprojPath := envGet env "MMPROJ_PATH"
            (dataDir env scriptDir ++ "/mmproj-BF16.gguf")
          imagePath := envGet env "IMAGE_PATH" (dataDir env scriptDir ++ "/temp.png")
          ngl := ngl
          threads := threads
          contextSize := ctx
          nPredict := np
          temp := pyFloatStr (envGet env "TEMPERATURE" "0.3")
          cacheTypeK := envGet env "CACHE_TYPE_K" "q4_1"
          cacheTypeV := envGet env "CACHE_TYPE_V" "q4_1"
          flashAttn := truthy (envGet env "FLASH_ATTN" "1")
          mlock := truthy (envGet env "MLOCK" "1")
          exe := envGet env "LLAMA_CLI_EXECUTABLE" "llama-gemma3-cli"
          prompt := envGet env promptVar promptDflt }
  | _, _, _, _ => none

/-- ocr_meta.py module load. -/
def ocrMetaDefaults? (env : String → Option String) (scriptDir : String) :
    Option OcrDefaults :=
  ocrDefaults? env scriptDir "1024" "METADATA_PROMPT" metadataPromptDefault

/-- ocr_tx.py module load. -/
def ocrTxDefaults? (env : String → Option String) (scriptDir : String) :
    Option OcrDefaults :=
  ocrDefaults? env scriptDir "2048" "TRANSACTIONS_PROMPT" transactionsPromptDefault

/-- Parsed command line of an OCR launcher: one optional override per
argparse flag. The OCR parsers define no flash-attention and no mlock
flag, so no such field exists here. -/
structure OcrCli where
  ngl : Option Int
  threads : Option Int
  contextSize : Option Int
  nPredict : Option Int
  temp : Option String
  cacheTypeK : Option String
  cacheTypeV : Option String
  model : Option String
  mmproj : Option String
  image : Option String
deriving DecidableEq

/-- Resolved options of one OCR launcher invocation (argparse Namespace). -/
structure OcrArgs where
  ngl : Int
  threads : Int
  contextSize : Int
  nPredict : Int
  temp : String
  cacheTypeK : String
  cacheTypeV : String
  model : String
  mmproj : String
  image : String
deriving DecidableEq

/-- argparse resolution for an OCR launcher: each option takes the CLI
value when given, else the module-level default. -/
def resolveOcr (d : OcrDefaults) (c : OcrCli) : OcrArgs :=
  { ngl := c.ngl.getD d.ngl
    threads := c.threads.getD d.threads
    contextSize := c.contextSize.getD d.contextSize
    nPredict := c.nPredict.getD d.nPredict
    temp := c.temp.getD d.temp
    cacheTypeK := c.cacheTypeK.getD d.cacheTypeK
    cacheTypeV := c.cacheTypeV.getD d.cacheTypeV
    model := c.model.getD d.modelPath
    mmproj := c.mmproj.getD d.mmprojPath
    image := c.image.getD d.imagePath }

/-- The fixed part of the OCR command list (ocr_meta.py lines 103-127,
ocr_tx.py lines 101-125). -/
def ocrCommandBase (d : OcrDefaults) (a : OcrArgs) : List String :=
  [d.exe, "-m", a.model, "--mmproj", a.mmproj, "--image", a.image,
   "-p", d.prompt, "-ngl", toString a.ngl, "--threads", toString a.threads,
   "-c", toString a.contextSize, "-n", toString a.nPredict,
   "--temp", a.temp, "-ctk", a.cacheTypeK, "-ctv", a.cacheTypeV]

/-- The conditional toggle appends of the OCR launchers: they test the
module-level DEFAULT_FLASH_ATTN / DEFAULT_MLOCK, not any parsed
argument (ocr_meta.py lines 128-131, ocr_tx.py lines 126-129). -/
def ocrToggles (d : OcrDefaults) : List String :=
  (if d.flashAttn then ["-fa"] else []) ++ (if d.mlock then ["--mlock"] else [])

/-- The full argument vector an OCR launcher hands to subprocess.run. -/
def ocrCommand (d : OcrDefaults) (a : OcrArgs) : List String :=
  ocrCommandBase d a ++ ocrToggles d

/-- OCR main() after argparse: validate the three paths, build the
command, spawn it with captured output, then on success print the
stripped child stdout, and on child failure print the diagnostics to
standard error and relay the child return code (ocr_meta.py lines
91-165, ocr_tx.py lines 89-163). -/
def ocrRun (d : OcrDefaults) (c : OcrCli) (fs : String → Bool)
    (spawn : List String → SpawnResult) : Outcome :=
  let a := resolveOcr d c
  if fs a.model = false then
    { exitCode := 1, outLines := [],
      errLines := ["Error: Model file not found at " ++ a.model],
      spawned := none }
  else if fs a.mmproj = false then
    { exitCode := 1, outLines := [],
      errLines := ["Error: MMPROJ file not found at " ++ a.mmproj],
      spawned := none }
  else if fs a.image = false then
    { exitCode := 1, outLines := [],
      errLines := ["Error: Image file not found at " ++ a.image],
      spawned := none }
  else
    let command := ocrCommand d a
    match spawn command with
    | .completed code childOut childErr =>
        if code = 0 then
          { exitCode := 0, outLines := [pyStrip childOut], errLines := [],
            spawned := some command }
        else
          { exitCode := code, outLines := []
            errLines := ["Error: Command failed with exit code " ++ toString code,
                         "\n--- stderr ---", pyStrip childErr,
                         "\n--- stdout ---", pyStrip childOut]
            spawned := some command }
    | .notFound =>
        { exitCode := 1, outLines := []
          errLines := ["Error: \x27" ++ d.exe ++ "\x27 command not found.",
                       "Please ensure llama.cpp is built and its binaries are in your PATH."]
          spawned := some command }

/-! ### watch_gpu.py -/

/-- The fixed command of watch_gpu.py. -/
def watchCommand : List String := ["watch", "-n", "1", "nvidia-smi"]

/-- watch_gpu.py main(): spawn the fixed command with inherited stdio and
relay the child return code (watch_gpu.py lines 5-22). -/
def watchGpuRun (spawn : List String → SpawnResult) : Outcome :=
  match spawn watchCommand with
  | .completed code _ _ =>
      { exitCode := code
        outLines := ["Running: " ++ String.intercalate " " watchCommand,
                     "\nWatch exited with code: " ++ toString code]
        errLines := []
        spawned := some watchCommand }
  | .notFound =>
      { exitCode := 1
        outLines := ["Running: " ++ String.intercalate " " watchCommand]
        errLines := ["Error: \x27watch\x27 or \x27nvidia-smi\x27 command not found.",
                     "Please ensure \x27watch\x27 and NVIDIA drivers/tools are installed and in your PATH."]
        spawned := some watchCommand }

/-! ### Flag and value inventories of the rendered argument vectors -/

/-- The flag literals of the chat.py fixed command part, in the order the
launcher emits them. -/
def chatFlags : List String :=
  ["-m", "--port", "-ngl", "-c", "-b", "-ub", "-ctk", "-ctv"]

/-- All flag literals chat.py can emit, toggles included. -/
def chatAllFlags : List String := chatFlags ++ ["-fa", "--mlock"]

/-- The non-flag entries of the chat.py command: the executable name and
the stringified option values, in the order they appear. -/
def chatValues (exe : String) (a : ChatArgs) : List String :=
  [exe, a.model, toString a.port, toString a.ngl, toString a.contextSize,
   toString a.batchSize, toString a.ubatchSize, a.cacheTypeK, a.cacheTypeV]

/-- The flag literals of the OCR fixed command part, in the order the
launcher emits them. -/
def ocrFlags : List String :=
  ["-m", "--mmproj", "--image", "-p", "-ngl", "--threads", "-c", "-n",
   "--temp", "-ctk", "-ctv"]

/-- All flag literals an OCR launcher can emit, toggles included. -/
def ocrAllFlags : List String := ocrFlags ++ ["-fa", "--mlock"]

/-- The non-flag entries of an OCR command: the executable name, the
prompt and the stringified option values, in the order they appear. -/
def ocrValues (d : OcrDefaults) (a : OcrArgs) : List String :=
  [d.exe, a.model, a.mmproj, a.image, d.prompt, toString a.ngl,
   toString a.threads, toString a.contextSize, toString a.nPredict,
   a.temp, a.cacheTypeK, a.cacheTypeV]

/-! ### Spec-side definitions

These two definitions follow the words of the SPEC, not the source: the
documented argument vector of each launcher ("executable, model, then
the remaining options in the order the launcher defines, each value in
its unaltered string form") and the documented three-layer option
resolution ("built-in default, environment variable, explicit CLI flag,
in increasing precedence"). The theorems compare them with the
source-derived definitions above. -/

/-- Spec-side: the documented argument vector of chat.py. -/
def chatDocumentedArgv (exe : String) (a : ChatArgs) : List String :=
  [exe, "-m", a.model, "--port", toString a.port, "-ngl", toString a.ngl,
   "-c", toString a.contextSize, "-b", toString a.batchSize,
   "-ub", toString a.ubatchSize, "-ctk", a.cacheTypeK, "-ctv", a.cacheTypeV]
  ++ (if a.flashAttn then ["-fa"] else [])
  ++ (if a.mlock then ["--mlock"] else [])

/-- Spec-side: the documented argument vector of the OCR launchers. -/
def ocrDocumentedArgv (d : OcrDefaults) (a : OcrArgs) : List String :=
  [d.exe, "-m", a.model, "--mmproj", a.mmproj, "--image", a.image,
   "-p", d.prompt, "-ngl", toString a.ngl, "--threads", toString a.threads,
   "-c", toString a.contextSize, "-n", toString a.nPredict,
   "--temp", a.temp, "-ctk", a.cacheTypeK, "-ctv", a.cacheTypeV]
  ++ (if d.flashAttn then ["-fa"] else [])
  ++ (if d.mlock then ["--mlock"] else [])

/-- Spec-side: the value of one option is resolved by layering three sources
in increasing precedence — built-in default, environment variable
(through its parse function), explicit CLI flag. -/
def Layered3 {α : Type} (cli : Option α) (envVal : Option String)
    (parse : String → Option α) (builtin : α) (resolved : α) : Prop :=
  (∀ v, cli = some v → resolved = v) ∧
  (∀ s v, cli = none → envVal = some s → parse s = some v → resolved = v) ∧
  (cli = none → envVal = none → resolved = builtin)

/-! ### Concrete fixtures used by the witness theorems -/

/-- An empty process environment. -/
def envNone : String → Option String := fun _ => none

/-- A chat.py command line with no flag given. -/
def chatCliNone : ChatCli :=
  { model := none, port := none, ngl := none, contextSize := none,
    batchSize := none, ubatchSize := none, cacheTypeK := none,
    cacheTypeV := none, flashAttn := none, mlock := none }

/-- An OCR command line with no flag given. -/
def ocrCliNone : OcrCli :=
  { ngl := none, threads := none, contextSize := none, nPredict := none,
    temp := none, cacheTypeK := none, cacheTypeV := none, model := none,
    mmproj := none, image := none }

/-- Sample chat.py module defaults. -/
def chatDEx : ChatDefaults :=
  { modelPath := "m.gguf", port := 4000, ngl := 48, contextSize := 8192,
    batchSize := 512, ubatchSize := 128, cacheTypeK := "q5_1",
    cacheTypeV := "q5_1", flashAttn := true, mlock := true,
    exe := "llama-server" }

/-- Sample OCR module defaults. -/
def ocrDEx : OcrDefaults :=
  { modelPath := "m.gguf", mmprojPath := "j.gguf", imagePath := "i.png",
    ngl := 34, threads := 3, contextSize := 16384, nPredict := 1024,
    temp := "0.3", cacheTypeK := "q4_1", cacheTypeV := "q4_1",
    flashAttn := true, mlock := true, exe := "llama-gemma3-cli",
    prompt := "P" }

/-- A filesystem on which every path is an existing regular file. -/
def fsAll : String → Bool := fun _ => true

/-- A filesystem with no files. -/
def fsEmpty : String → Bool := fun _ => false

/-- A spawn oracle: the child exits 0 printing a JSON object framed by
whitespace on stdout and noise on stderr. -/
def spawnOk : List String → SpawnResult :=
  fun _ => .completed 0 " \x7b\"ok\":true\x7d\n" "load noise"

/-- A spawn oracle: the child exits 2. -/
def spawnExit2 : List String → SpawnResult :=
  fun _ => .completed 2 "half-out\n" "boom\n"

/-- A spawn oracle: the executable is absent from the search path. -/
def spawnAbsent : List String → SpawnResult := fun _ => .notFound

/-- Chat arguments with flash-attention on and mlock off. -/
def chatArgsEx : ChatArgs :=
  { model := "m.gguf", port := 4000, ngl := 48, contextSize := 16384,
    batchSize := 512, ubatchSize := 128, cacheTypeK := "q5_1",
    cacheTypeV := "q5_1", flashAttn := true, mlock := false }

/-- An environment that turns flash attention off and shortens the
prompt. -/
def env9 : String → Option String := fun n =>
  if n = "FLASH_ATTN" then some "0"
  else if n = "METADATA_PROMPT" then some "P" else none

/-- The OCR module defaults that env9 produces. -/
def ocrD9 : OcrDefaults :=
  { modelPath := "S/data/gemma-3-4b-it-Q5_K_M.gguf",
    mmprojPath := "S/data/mmproj-BF16.gguf", imagePath := "S/data/temp.png",
    ngl := 34, threads := 3, contextSize := 16384, nPredict := 1024,
    temp := "0.3", cacheTypeK := "q4_1", cacheTypeV := "q4_1",
    flashAttn := false, mlock := true, exe := "llama-gemma3-cli",
    prompt := "P" }

/-- An OCR command line that overrides every available flag. -/
def ocrCli2 : OcrCli :=
  { ngl := some 99, threads := some 7, contextSize := some 2048,
    nPredict := some 16, temp := some "0.7", cacheTypeK := some "f16",
    cacheTypeV := some "f16", model := some "a.gguf",
    mmproj := some "b.gguf", image := some "c.png" }

/-- An environment that only overrides the chat server port. -/
def envPort : String → Option String := fun n =>
  if n = "SERVER_PORT" then some "7777" else none

/-- The chat.py module defaults that an empty environment produces. -/
def chatDEnv0 : ChatDefaults :=
  { modelPath := "S/data/gemma-3-4b-it-Q5_K_M.gguf", port := 4000, ngl := 48,
    contextSize := 8192, batchSize := 512, ubatchSize := 128,
    cacheTypeK := "q5_1", cacheTypeV := "q5_1", flashAttn := true,
    mlock := true, exe := "llama-server" }

/-- The chat.py module defaults that envPort produces. -/
def chatDPort : ChatDefaults :=
  { modelPath := "S/data/gemma-3-4b-it-Q5_K_M.gguf", port := 7777, ngl := 48,
    contextSize := 8192, batchSize := 512, ubatchSize := 128,
    cacheTypeK := "q5_1", cacheTypeV := "q5_1", flashAttn := true,
    mlock := true, exe := "llama-server" }

/-- A chat.py command line that only overrides the port. -/
def chatCliPort : ChatCli :=
  { model := none, port := some 9999, ngl := none, contextSize := none,
    batchSize := none, ubatchSize := none, cacheTypeK := none,
    cacheTypeV := none, flashAttn := none, mlock := none }

/-- Occurrence counting in the chat.py command decomposes into counts over
its value entries, its fixed flags and its toggle suffix. -/
lemma chatCommand_count (exe : String) (a : ChatArgs) (f : String) :
    List.count f (chatCommand exe a) =
      List.count f (chatValues exe a) + List.count f chatFlags
        + List.count f (chatToggles a) := by
  simp only [chatCommand, chatCommandBase, chatToggles, chatValues, chatFlags,
    List.count_append, List.count_cons, List.count_nil]
  ring

/-- Occurrence counting in an OCR command decomposes into counts over
its value entries, its fixed flags and its toggle suffix. -/
lemma ocrCommand_count (d : OcrDefaults) (a : OcrArgs) (f : String) :
    List.count f (ocrCommand d a) =
      List.count f (ocrValues d a) + List.count f ocrFlags
        + List.count f (ocrToggles d) := by
  simp only [ocrCommand, ocrCommandBase, ocrToggles, ocrValues, ocrFlags,
    List.count_append, List.count_cons, List.count_nil]
  ring

/-- A string other than "-fa" and "--mlock" never occurs in the chat.py
toggle suffix. -/
lemma chatToggles_count_eq_zero (a : ChatArgs) (f : String)
    (h1 : f ≠ "-fa") (h2 : f ≠ "--mlock") :
    List.count f (chatToggles a) = 0 := by
  cases hfa : a.flashAttn <;> cases hml : a.mlock <;>
    simp [chatToggles, hfa, hml, List.count_cons, h1, h2]

/-- A string other than "-fa" and "--mlock" never occurs in an OCR
toggle suffix. -/
lemma ocrToggles_count_eq_zero (d : OcrDefaults) (f : String)
    (h1 : f ≠ "-fa") (h2 : f ≠ "--mlock") :
    List.count f (ocrToggles d) = 0 := by
  cases hfa : d.flashAttn <;> cases hml : d.mlock <;>
    simp [ocrToggles, hfa, hml, List.count_cons, h1, h2]

/-- Count of "-fa" in the chat.py toggle suffix. -/
lemma chatToggles_count_fa (a : ChatArgs) :
    List.count "-fa" (chatToggles a) = if a.flashAttn then 1 else 0 := by
  cases hfa : a.flashAttn <;> cases hml : a.mlock <;>
    simp [chatToggles, hfa, hml, List.count_cons]

/-- Count of "--mlock" in the chat.py toggle suffix. -/
lemma chatToggles_count_mlock (a : ChatArgs) :
    List.count "--mlock" (chatToggles a) = if a.mlock then 1 else 0 := by
  cases hfa : a.flashAttn <;> cases hml : a.mlock <;>
    simp [chatToggles, hfa, hml, List.count_cons]

/-- Count of "-fa" in an OCR toggle suffix. -/
lemma ocrToggles_count_fa (d : OcrDefaults) :
    List.count "-fa" (ocrToggles d) = if d.flashAttn then 1 else 0 := by
  cases hfa : d.flashAttn <;> cases hml : d.mlock <;>
    simp [ocrToggles, hfa, hml, List.count_cons]

/-- Count of "--mlock" in an OCR toggle suffix. -/
lemma ocrToggles_count_mlock (d : OcrDefaults) :
    List.count "--mlock" (ocrToggles d) = if d.mlock then 1 else 0 := by
  cases hfa : d.flashAttn <;> cases hml : d.mlock <;>
    simp [ocrToggles, hfa, hml, List.count_cons]

/-! ### Extraction of the module-level defaults from a successful load -/

/-- What a successful chat.py module load says about each DEFAULT_. -/
lemma chatDefaults?_spec (env : String → Option String) (sd : String)
    (d : ChatDefaults) (h : chatDefaults? env sd = some d) :
    pyInt? (envGet env "SERVER_PORT" "4000") = some d.port ∧
    pyInt? (envGet env "N_GPU_LAYERS" "48") = some d.ngl ∧
    pyInt? (envGet env "CONTEXT_SIZE" "8192") = some d.contextSize ∧
    pyInt? (envGet env "BATCH_SIZE" "512") = some d.batchSize ∧
    pyInt? (envGet env "UBATCH_SIZE" "128") = some d.ubatchSize ∧
    d.modelPath = envGet env "MODEL_PATH"
      (dataDir env sd ++ "/gemma-3-4b-it-Q5_K_M.gguf") ∧
    d.cacheTypeK = envGet env "CACHE_TYPE_K" "q5_1" ∧
    d.cacheTypeV = envGet env "CACHE_TYPE_V" "q5_1" ∧
    d.flashAttn = truthy (envGet env "FLASH_ATTN" "1") ∧
    d.mlock = truthy (envGet env "MLOCK" "1") ∧
    d.exe = envGet env "LLAMA_SERVER_EXECUTABLE" "llama-server" := by
  unfold chatDefaults? at h
  split at h
  · cases h
    refine ⟨?_, ?_, ?_, ?_, ?_, ?_, ?_, ?_, ?_, ?_, ?_⟩ <;> simp_all
  · exact absurd h (by simp)

/-- What a successful OCR module load says about each DEFAULT_. -/
lemma ocrDefaults?_spec (env : String → Option String) (sd : String)
    (nd pv pdf : String) (d : OcrDefaults)
    (h : ocrDefaults? env sd nd pv pdf = some d) :
    pyInt? (envGet env "N_GPU_LAYERS" "34") = some d.ngl ∧
    pyInt? (envGet env "THREADS" "3") = some d.threads ∧
    pyInt? (envGet env "CONTEXT_SIZE" "16384") = some d.contextSize ∧
    pyInt? (envGet env "N_PREDICT" nd) = some d.nPredict ∧
    d.modelPath = envGet env "MODEL_PATH"
      (dataDir env sd ++ "/gemma-3-4b-it-Q5_K_M.gguf") ∧
    d.mmprojPath = envGet env "MMPROJ_PATH" (dataDir env sd ++ "/mmproj-BF16.gguf") ∧
    d.imagePath = envGet env "IMAGE_PATH" (dataDir env sd ++ "/temp.png") ∧
    d.temp = pyFloatStr (envGet env "TEMPERATURE" "0.3") ∧
    d.cacheTypeK = envGet env "CACHE_TYPE_K" "q4_1" ∧
    d.cacheTypeV = envGet env "CACHE_TYPE_V" "q4_1" ∧
    d.flashAttn = truthy (envGet env "FLASH_ATTN" "1") ∧
    d.mlock = truthy (envGet env "MLOCK" "1") ∧
    d.exe = envGet env "LLAMA_CLI_EXECUTABLE" "llama-gemma3-cli" ∧
    d.prompt = envGet env pv pdf := by
  unfold ocrDefaults? at h
  split at h
  · cases h
    refine ⟨?_, ?_, ?_, ?_, ?_, ?_, ?_, ?_, ?_, ?_, ?_, ?_, ?_, ?_⟩ <;> simp_all
  · exact absurd h (by simp)

/-- Every entry of the chat.py toggle suffix is "-fa" or "--mlock". -/
lemma chatToggles_mem (a : ChatArgs) :
    ∀ s ∈ chatToggles a, s = "-fa" ∨ s = "--mlock" := by
  intro s hs
  rcases List.mem_append.mp hs with h | h
  · have : s = "-fa" := by revert h; split <;> simp
    exact Or.inl this
  · have : s = "--mlock" := by revert h; split <;> simp
    exact Or.inr this

/-- Every entry of an OCR toggle suffix is "-fa" or "--mlock". -/
lemma ocrToggles_mem (d : OcrDefaults) :
    ∀ s ∈ ocrToggles d, s = "-fa" ∨ s = "--mlock" := by
  intro s hs
  rcases List.mem_append.mp hs with h | h
  · have : s = "-fa" := by revert h; split <;> simp
    exact Or.inl this
  · have : s = "--mlock" := by revert h; split <;> simp
    exact Or.inr this

/-! ### The claims -/

/-- C1: for every launch configuration in which a required path-valued
option (the model file; for the OCR launchers also the mmproj file and
the image file) does not name an existing regular file, the launcher
writes an error message naming the missing path to standard error, exits
with status 1, and never hands an argument vector to subprocess.run. -/
theorem claim_C1_missing_file_blocks_spawn :
    (∀ (d : ChatDefaults) (c : ChatCli) (fs : String → Bool)
        (spawn : List String → SpawnResult),
      fs (resolveChat d c).model = false →
        chatRun d c fs spawn =
          { exitCode := 1, outLines := [],
            errLines := ["Error: Model file not found at " ++ (resolveChat d c).model],
            spawned := none }) ∧
    (∀ (d : OcrDefaults) (c : OcrCli) (fs : String → Bool)
        (spawn : List String → SpawnResult),
      (fs (resolveOcr d c).model = false ∨ fs (resolveOcr d c).mmproj = false ∨
          fs (resolveOcr d c).image = false) →
        (ocrRun d c fs spawn).exitCode = 1 ∧
        (ocrRun d c fs spawn).spawned = none ∧
        ∃ kind p, fs p = false ∧
          (kind, p) ∈ [("Model", (resolveOcr d c).model),
                       ("MMPROJ", (resolveOcr d c).mmproj),
                       ("Image", (resolveOcr d c).image)] ∧
          (ocrRun d c fs spawn).errLines =
            ["Error: " ++ kind ++ " file not found at " ++ p]) := by
  constructor
  · intro d c fs spawn h
    simp [chatRun, h]
  · intro d c fs spawn h
    by_cases hm : fs (resolveOcr d c).model = false
    · exact ⟨by simp [ocrRun, hm], by simp [ocrRun, hm],
        "Model", (resolveOcr d c).model, hm, by simp, by simp [ocrRun, hm]⟩
    · simp only [Bool.not_eq_false] at hm
      by_cases hj : fs (resolveOcr d c).mmproj = false
      · exact ⟨by simp [ocrRun, hm, hj], by simp [ocrRun, hm, hj],
          "MMPROJ", (resolveOcr d c).mmproj, hj, by simp, by simp [ocrRun, hm, hj]⟩
      · simp only [Bool.not_eq_false] at hj
        have hi : fs (resolveOcr d c).image = false := by
          rcases h with h' | h' | h'
          · rw [h'] at hm; cases hm
          · rw [h'] at hj; cases hj
          · exact h'
        exact ⟨by simp [ocrRun, hm, hj, hi], by simp [ocrRun, hm, hj, hi],
          "Image", (resolveOcr d c).image, hi, by simp, by simp [ocrRun, hm, hj, hi]⟩

/-- Witness for C1 at concrete inputs: an empty filesystem blocks both
launchers with exit status 1, no spawn, and an error naming the path. -/
theorem claim_C1_witness :
    fsEmpty (resolveChat chatDEx chatCliNone).model = false ∧
    chatRun chatDEx chatCliNone fsEmpty spawnOk =
      { exitCode := 1, outLines := [],
        errLines := ["Error: Model file not found at m.gguf"], spawned := none } ∧
    (ocrRun ocrDEx ocrCliNone fsEmpty spawnOk).exitCode = 1 ∧
    (ocrRun ocrDEx ocrCliNone fsEmpty spawnOk).spawned = none := by
  refine ⟨by decide, ?_, ?_, ?_⟩
  · have h := claim_C1_missing_file_blocks_spawn.1 chatDEx chatCliNone fsEmpty spawnOk
      (by decide)
    rw [h]; decide
  · exact (claim_C1_missing_file_blocks_spawn.2 ocrDEx ocrCliNone fsEmpty spawnOk
      (Or.inl (by decide))).1
  · exact (claim_C1_missing_file_blocks_spawn.2 ocrDEx ocrCliNone fsEmpty spawnOk
      (Or.inl (by decide))).2.1

/-- C4: for every valid configuration of a capture-mode launcher, when
the child exits 0 having written S to its standard output, the launcher
prints exactly S stripped of leading and trailing whitespace to its own
standard output and exits with status 0. -/
theorem claim_C4_capture_success_prints_stripped_stdout
    (d : OcrDefaults) (c : OcrCli) (fs : String → Bool)
    (spawn : List String → SpawnResult) (childOut childErr : String)
    (hm : fs (resolveOcr d c).model = true)
    (hj : fs (resolveOcr d c).mmproj = true)
    (hi : fs (resolveOcr d c).image = true)
    (hs : spawn (ocrCommand d (resolveOcr d c)) = .completed 0 childOut childErr) :
    ocrRun d c fs spawn =
      { exitCode := 0, outLines := [pyStrip childOut], errLines := [],
        spawned := some (ocrCommand d (resolveOcr d c)) } := by
  simp [ocrRun, hm, hj, hi, hs]

/-- Witness for C4: a stub child exiting 0 with stdout
" \x7b"ok":true\x7d\n" makes the launcher print "\x7b"ok":true\x7d" and
exit 0. -/
theorem claim_C4_witness :
    ocrRun ocrDEx ocrCliNone fsAll spawnOk =
      { exitCode := 0, outLines := ["\x7b\"ok\":true\x7d"], errLines := [],
        spawned := some (ocrCommand ocrDEx (resolveOcr ocrDEx ocrCliNone)) } := by
  rw [claim_C4_capture_success_prints_stripped_stdout ocrDEx ocrCliNone fsAll spawnOk
    " \x7b\"ok\":true\x7d\n" "load noise" (by decide) (by decide) (by decide) (by decide)]
  decide

/-- C5: for every valid configuration of a capture-mode launcher, when
the child exits with non-zero status n, the launcher writes the captured
standard error and captured standard output of the child to its own
standard error and exits with status n. -/
theorem claim_C5_capture_failure_relays_code_and_stderr
    (d : OcrDefaults) (c : OcrCli) (fs : String → Bool)
    (spawn : List String → SpawnResult) (code : Int) (childOut childErr : String)
    (hm : fs (resolveOcr d c).model = true)
    (hj : fs (resolveOcr d c).mmproj = true)
    (hi : fs (resolveOcr d c).image = true)
    (hs : spawn (ocrCommand d (resolveOcr d c)) = .completed code childOut childErr)
    (hn : code ≠ 0) :
    ocrRun d c fs spawn =
      { exitCode := code, outLines := [],
        errLines := ["Error: Command failed with exit code " ++ toString code,
                     "\n--- stderr ---", pyStrip childErr,
                     "\n--- stdout ---", pyStrip childOut],
        spawned := some (ocrCommand d (resolveOcr d c)) } := by
  simp [ocrRun, hm, hj, hi, hs, hn]

/-- Witness for C5: a stub child exiting 2 makes the launcher exit 2
with the stripped child stderr and stdout on its standard error. -/
theorem claim_C5_witness :
    ocrRun ocrDEx ocrCliNone fsAll spawnExit2 =
      { exitCode := 2, outLines := [],
        errLines := ["Error: Command failed with exit code 2",
                     "\n--- stderr ---", "boom", "\n--- stdout ---", "half-out"],
        spawned := some (ocrCommand ocrDEx (resolveOcr ocrDEx ocrCliNone)) } := by
  rw [claim_C5_capture_failure_relays_code_and_stderr ocrDEx ocrCliNone fsAll spawnExit2
    2 "half-out\n" "boom\n" (by decide) (by decide) (by decide) (by decide) (by decide)]
  decide

/-- C6: for every launch configuration whose configured executable is
absent from the search path (the spawn attempt reports file-not-found),
the launcher writes an explicit "not found" message plus guidance to
standard error and exits with status 1. -/
theorem claim_C6_executable_not_found :
    (∀ (d : ChatDefaults) (c : ChatCli) (fs : String → Bool)
        (spawn : List String → SpawnResult),
      fs (resolveChat d c).model = true →
      spawn (chatCommand d.exe (resolveChat d c)) = .notFound →
        chatRun d c fs spawn =
          { exitCode := 1
            outLines := ["Starting server: " ++
              String.intercalate " " (chatCommand d.exe (resolveChat d c))]
            errLines := ["Error: \x27" ++ d.exe ++ "\x27 command not found.",
                         "Please ensure llama.cpp is built and its binaries are in your PATH."]
            spawned := some (chatCommand d.exe (resolveChat d c)) }) ∧
    (∀ (d : OcrDefaults) (c : OcrCli) (fs : String → Bool)
        (spawn : List String → SpawnResult),
      fs (resolveOcr d c).model = true →
      fs (resolveOcr d c).mmproj = true →
      fs (resolveOcr d c).image = true →
      spawn (ocrCommand d (resolveOcr d c)) = .notFound →
        ocrRun d c fs spawn =
          { exitCode := 1, outLines := []
            errLines := ["Error: \x27" ++ d.exe ++ "\x27 command not found.",
                         "Please ensure llama.cpp is built and its binaries are in your PATH."]
            spawned := some (ocrCommand d (resolveOcr d c)) }) := by
  constructor
  · intro d c fs spawn hm hs
    simp [chatRun, hm, hs]
  · intro d c fs spawn hm hj hi hs
    simp [ocrRun, hm, hj, hi, hs]

/-- Witness for C6: with the executable absent both launchers exit 1
with the "not found" message and the PATH guidance. -/
theorem claim_C6_witness :
    (chatRun chatDEx chatCliNone fsAll spawnAbsent).exitCode = 1 ∧
    (chatRun chatDEx chatCliNone fsAll spawnAbsent).errLines =
      ["Error: \x27llama-server\x27 command not found.",
       "Please ensure llama.cpp is built and its binaries are in your PATH."] ∧
    (ocrRun ocrDEx ocrCliNone fsAll spawnAbsent).exitCode = 1 ∧
    (ocrRun ocrDEx ocrCliNone fsAll spawnAbsent).errLines =
      ["Error: \x27llama-gemma3-cli\x27 command not found.",
       "Please ensure llama.cpp is built and its binaries are in your PATH."] := by
  have h1 := claim_C6_executable_not_found.1 chatDEx chatCliNone fsAll spawnAbsent
    (by decide) (by decide)
  have h2 := claim_C6_executable_not_found.2 ocrDEx ocrCliNone fsAll spawnAbsent
    (by decide) (by decide) (by decide) (by decide)
  rw [h1, h2]
  exact ⟨rfl, rfl, rfl, rfl⟩

/-- C7: for every valid configuration of a streaming-mode launcher (the
chat server launcher and the GPU-watch launcher), when the child runs to
completion the launcher exit status equals the child return code,
whatever it is. -/
theorem claim_C7_streaming_relays_exit_code :
    (∀ (d : ChatDefaults) (c : ChatCli) (fs : String → Bool)
        (spawn : List String → SpawnResult) (code : Int) (o e : String),
      fs (resolveChat d c).model = true →
      spawn (chatCommand d.exe (resolveChat d c)) = .completed code o e →
        (chatRun d c fs spawn).exitCode = code) ∧
    (∀ (spawn : List String → SpawnResult) (code : Int) (o e : String),
      spawn watchCommand = .completed code o e →
        (watchGpuRun spawn).exitCode = code) := by
  constructor
  · intro d c fs spawn code o e hm hs
    simp [chatRun, hm, hs]
  · intro spawn code o e hs
    simp [watchGpuRun, hs]

/-- Witness for C7: a child exiting 2 gives launcher exit status 2 for
both streaming launchers. -/
theorem claim_C7_witness :
    (chatRun chatDEx chatCliNone fsAll spawnExit2).exitCode = 2 ∧
    (watchGpuRun spawnExit2).exitCode = 2 := by
  exact ⟨claim_C7_streaming_relays_exit_code.1 chatDEx chatCliNone fsAll spawnExit2
      2 "half-out\n" "boom\n" (by decide) (by decide),
    claim_C7_streaming_relays_exit_code.2 spawnExit2 2 "half-out\n" "boom\n" (by decide)⟩

/-- C10 (implicit frame effect): in a capture-mode launcher, when the
child exits 0 its captured standard error is discarded — the launcher
outcome is the same whatever the child wrote to standard error, nothing
is written to the launcher standard error, and only the stripped
captured standard output is emitted. -/
theorem claim_C10_success_discards_child_stderr
    (d : OcrDefaults) (c : OcrCli) (fs : String → Bool)
    (spawn₁ spawn₂ : List String → SpawnResult) (childOut e₁ e₂ : String)
    (hm : fs (resolveOcr d c).model = true)
    (hj : fs (resolveOcr d c).mmproj = true)
    (hi : fs (resolveOcr d c).image = true)
    (h₁ : spawn₁ (ocrCommand d (resolveOcr d c)) = .completed 0 childOut e₁)
    (h₂ : spawn₂ (ocrCommand d (resolveOcr d c)) = .completed 0 childOut e₂) :
    ocrRun d c fs spawn₁ = ocrRun d c fs spawn₂ ∧
    (ocrRun d c fs spawn₁).errLines = [] ∧
    (ocrRun d c fs spawn₁).outLines = [pyStrip childOut] := by
  refine ⟨?_, ?_, ?_⟩ <;> simp [ocrRun, hm, hj, hi, h₁, h₂]

/-- Witness for C10: two children that exit 0 with the same stdout but
different stderr yield identical launcher outcomes, with empty launcher
stderr. -/
theorem claim_C10_witness :
    ocrRun ocrDEx ocrCliNone fsAll (fun _ => .completed 0 "out" "noisy") =
      ocrRun ocrDEx ocrCliNone fsAll (fun _ => .completed 0 "out" "silent") ∧
    (ocrRun ocrDEx ocrCliNone fsAll (fun _ => .completed 0 "out" "noisy")).errLines = [] ∧
    (ocrRun ocrDEx ocrCliNone fsAll (fun _ => .completed 0 "out" "noisy")).outLines =
      [pyStrip "out"] :=
  claim_C10_success_discards_child_stderr ocrDEx ocrCliNone fsAll
    (fun _ => .completed 0 "out" "noisy") (fun _ => .completed 0 "out" "silent")
    "out" "noisy" "silent" (by decide) (by decide) (by decide) (by decide) (by decide)

/-- C3: the boolean toggle options map to the presence (when true) or
absence (when false) of their flag in the rendered argument vector, and
the strings "true" and "false" never appear as the value of a toggle: the
toggle suffix holds nothing but the bare flags. The hypothesis rules out
the degenerate configurations in which a user-chosen string value is
itself one of the flag literals. -/
theorem claim_C3_toggles_flag_presence_never_literal :
    (∀ (exe : String) (a : ChatArgs),
      (∀ f ∈ chatAllFlags, List.count f (chatValues exe a) = 0) →
        (("-fa" ∈ chatCommand exe a) ↔ a.flashAttn = true) ∧
        (("--mlock" ∈ chatCommand exe a) ↔ a.mlock = true) ∧
        (∀ s ∈ chatToggles a, s = "-fa" ∨ s = "--mlock") ∧
        "true" ∉ chatToggles a ∧ "false" ∉ chatToggles a) ∧
    (∀ (d : OcrDefaults) (a : OcrArgs),
      (∀ f ∈ ocrAllFlags, List.count f (ocrValues d a) = 0) →
        (("-fa" ∈ ocrCommand d a) ↔ d.flashAttn = true) ∧
        (("--mlock" ∈ ocrCommand d a) ↔ d.mlock = true) ∧
        (∀ s ∈ ocrToggles d, s = "-fa" ∨ s = "--mlock") ∧
        "true" ∉ ocrToggles d ∧ "false" ∉ ocrToggles d) := by
  constructor
  · intro exe a hv
    have h0 : List.count "-fa" chatFlags = 0 := by decide
    have h0' : List.count "--mlock" chatFlags = 0 := by decide
    have hfa := chatCommand_count exe a "-fa"
    rw [hv "-fa" (by decide), h0, chatToggles_count_fa] at hfa
    have hml := chatCommand_count exe a "--mlock"
    rw [hv "--mlock" (by decide), h0', chatToggles_count_mlock] at hml
    refine ⟨?_, ?_, chatToggles_mem a, ?_, ?_⟩
    · rw [← List.count_pos_iff, hfa]
      cases h : a.flashAttn <;> simp
    · rw [← List.count_pos_iff, hml]
      cases h : a.mlock <;> simp
    · intro hmem
      rcases chatToggles_mem a _ hmem with h' | h' <;> exact absurd h' (by decide)
    · intro hmem
      rcases chatToggles_mem a _ hmem with h' | h' <;> exact absurd h' (by decide)
  · intro d a hv
    have h0 : List.count "-fa" ocrFlags = 0 := by decide
    have h0' : List.count "--mlock" ocrFlags = 0 := by decide
    have hfa := ocrCommand_count d a "-fa"
    rw [hv "-fa" (by decide), h0, ocrToggles_count_fa] at hfa
    have hml := ocrCommand_count d a "--mlock"
    rw [hv "--mlock" (by decide), h0', ocrToggles_count_mlock] at hml
    refine ⟨?_, ?_, ocrToggles_mem d, ?_, ?_⟩
    · rw [← List.count_pos_iff, hfa]
      cases h : d.flashAttn <;> simp
    · rw [← List.count_pos_iff, hml]
      cases h : d.mlock <;> simp
    · intro hmem
      rcases ocrToggles_mem d _ hmem with h' | h' <;> exact absurd h' (by decide)
    · intro hmem
      rcases ocrToggles_mem d _ hmem with h' | h' <;> exact absurd h' (by decide)

/-- Witness for C3: with flash-attention on and mlock off, "-fa" is in
the vector, "--mlock" is not, and no "true"/"false" literal is in the
toggle suffix. -/
theorem claim_C3_witness :
    "-fa" ∈ chatCommand "llama-server" chatArgsEx ∧
    "--mlock" ∉ chatCommand "llama-server" chatArgsEx ∧
    "true" ∉ chatToggles chatArgsEx ∧ "false" ∉ chatToggles chatArgsEx := by
  have h := claim_C3_toggles_flag_presence_never_literal.1 "llama-server" chatArgsEx
    (by decide)
  exact ⟨h.1.mpr (by decide), fun hm => absurd (h.2.1.mp hm) (by decide),
    h.2.2.2.1, h.2.2.2.2⟩

/-- C9 (noninterference): in the OCR launchers the presence of "-fa" and
"--mlock" in the rendered argument vector is a function of the FLASH_ATTN
and MLOCK environment variables alone — two invocations under the same
environment render the toggles identically whatever their command lines
are. The count hypotheses rule out user-chosen string values that are
themselves one of the flag literals. -/
theorem claim_C9_ocr_toggles_depend_only_on_env
    (env : String → Option String) (sd nd pv pdf : String) (d : OcrDefaults)
    (c₁ c₂ : OcrCli)
    (hd : ocrDefaults? env sd nd pv pdf = some d)
    (hv₁ : ∀ f ∈ ocrAllFlags, List.count f (ocrValues d (resolveOcr d c₁)) = 0)
    (hv₂ : ∀ f ∈ ocrAllFlags, List.count f (ocrValues d (resolveOcr d c₂)) = 0) :
    (("-fa" ∈ ocrCommand d (resolveOcr d c₁)) ↔
      truthy (envGet env "FLASH_ATTN" "1") = true) ∧
    (("-fa" ∈ ocrCommand d (resolveOcr d c₂)) ↔
      truthy (envGet env "FLASH_ATTN" "1") = true) ∧
    (("--mlock" ∈ ocrCommand d (resolveOcr d c₁)) ↔
      truthy (envGet env "MLOCK" "1") = true) ∧
    (("--mlock" ∈ ocrCommand d (resolveOcr d c₂)) ↔
      truthy (envGet env "MLOCK" "1") = true) ∧
    (("-fa" ∈ ocrCommand d (resolveOcr d c₁)) ↔
      ("-fa" ∈ ocrCommand d (resolveOcr d c₂))) ∧
    (("--mlock" ∈ ocrCommand d (resolveOcr d c₁)) ↔
      ("--mlock" ∈ ocrCommand d (resolveOcr d c₂))) := by
  obtain ⟨-, -, -, -, -, -, -, -, -, -, e11, e12, -, -⟩ := ocrDefaults?_spec env sd nd pv pdf d hd
  have h0 : List.count "-fa" ocrFlags = 0 := by decide
  have h0' : List.count "--mlock" ocrFlags = 0 := by decide
  have key : ∀ (c : OcrCli),
      (∀ f ∈ ocrAllFlags, List.count f (ocrValues d (resolveOcr d c)) = 0) →
      (("-fa" ∈ ocrCommand d (resolveOcr d c)) ↔ d.flashAttn = true) ∧
      (("--mlock" ∈ ocrCommand d (resolveOcr d c)) ↔ d.mlock = true) := by
    intro c hv
    have hfa := ocrCommand_count d (resolveOcr d c) "-fa"
    rw [hv "-fa" (by decide), h0, ocrToggles_count_fa] at hfa
    have hml := ocrCommand_count d (resolveOcr d c) "--mlock"
    rw [hv "--mlock" (by decide), h0', ocrToggles_count_mlock] at hml
    constructor
    · rw [← List.count_pos_iff, hfa]
      cases h : d.flashAttn <;> simp
    · rw [← List.count_pos_iff, hml]
      cases h : d.mlock <;> simp
  have k₁ := key c₁ hv₁
  have k₂ := key c₂ hv₂
  have efa : (d.flashAttn = true) ↔ (truthy (envGet env "FLASH_ATTN" "1") = true) := by
    rw [e11]
  have eml : (d.mlock = true) ↔ (truthy (envGet env "MLOCK" "1") = true) := by
    rw [e12]
  exact ⟨k₁.1.trans efa, k₂.1.trans efa, k₁.2.trans eml, k₂.2.trans eml,
    k₁.1.trans k₂.1.symm, k₁.2.trans k₂.2.symm⟩

/-- Witness for C9: under FLASH_ATTN=0 the "-fa" flag is absent and
"--mlock" present for both an empty command line and one that overrides
every available flag. -/
theorem claim_C9_witness :
    ocrDefaults? env9 "S" "1024" "METADATA_PROMPT" metadataPromptDefault =
      some ocrD9 ∧
    "-fa" ∉ ocrCommand ocrD9 (resolveOcr ocrD9 ocrCliNone) ∧
    "-fa" ∉ ocrCommand ocrD9 (resolveOcr ocrD9 ocrCli2) ∧
    "--mlock" ∈ ocrCommand ocrD9 (resolveOcr ocrD9 ocrCliNone) ∧
    "--mlock" ∈ ocrCommand ocrD9 (resolveOcr ocrD9 ocrCli2) := by
  have h := claim_C9_ocr_toggles_depend_only_on_env env9 "S" "1024" "METADATA_PROMPT"
    metadataPromptDefault ocrD9 ocrCliNone ocrCli2 (by decide) (by decide) (by decide)
  exact ⟨by decide, fun hm => absurd (h.1.mp hm) (by decide),
    fun hm => absurd (h.2.1.mp hm) (by decide),
    h.2.2.1.mpr (by decide), h.2.2.2.1.mpr (by decide)⟩

/-- C2: for every valid launch configuration the rendered argument
vector equals the documented vector (executable first, model flag and
value next, then the remaining options in the fixed launcher order,
every value in its string form), the flag literals appear in the
documented order, each configured flag appears exactly once (the count
hypothesis rules out user-chosen string values that are themselves flag
literals), and the context-size flag is immediately followed by the
stringified context size. -/
theorem claim_C2_argv_documented_order_each_flag_once :
    (∀ (exe : String) (a : ChatArgs),
      chatCommand exe a = chatDocumentedArgv exe a) ∧
    (∀ (exe : String) (a : ChatArgs), (chatCommand exe a).head? = some exe) ∧
    (∀ (exe : String) (a : ChatArgs), List.Sublist chatFlags (chatCommand exe a)) ∧
    (∀ (exe : String) (a : ChatArgs), ∃ l r,
      chatCommand exe a = l ++ ["-c", toString a.contextSize] ++ r) ∧
    (∀ (exe : String) (a : ChatArgs),
      (∀ f ∈ chatAllFlags, List.count f (chatValues exe a) = 0) →
        (∀ f ∈ chatFlags, List.count f (chatCommand exe a) = 1) ∧
        List.count "-fa" (chatCommand exe a) = (if a.flashAttn then 1 else 0) ∧
        List.count "--mlock" (chatCommand exe a) = (if a.mlock then 1 else 0)) ∧
    (∀ (d : OcrDefaults) (a : OcrArgs),
      ocrCommand d a = ocrDocumentedArgv d a) ∧
    (∀ (d : OcrDefaults) (a : OcrArgs), (ocrCommand d a).head? = some d.exe) ∧
    (∀ (d : OcrDefaults) (a : OcrArgs), List.Sublist ocrFlags (ocrCommand d a)) ∧
    (∀ (d : OcrDefaults) (a : OcrArgs), ∃ l r,
      ocrCommand d a = l ++ ["-c", toString a.contextSize] ++ r) ∧
    (∀ (d : OcrDefaults) (a : OcrArgs),
      (∀ f ∈ ocrAllFlags, List.count f (ocrValues d a) = 0) →
        (∀ f ∈ ocrFlags, List.count f (ocrCommand d a) = 1) ∧
        List.count "-fa" (ocrCommand d a) = (if d.flashAttn then 1 else 0) ∧
        List.count "--mlock" (ocrCommand d a) = (if d.mlock then 1 else 0)) := by
  refine ⟨?_, ?_, ?_, ?_, ?_, ?_, ?_, ?_, ?_, ?_⟩
  · intro exe a
    simp [chatCommand, chatCommandBase, chatToggles, chatDocumentedArgv]
  · intro exe a
    rfl
  · intro exe a
    refine List.Sublist.trans ?_ (List.sublist_append_left _ (chatToggles a))
    simp only [chatCommandBase, chatFlags]
    repeat
      first
      | exact List.nil_sublist _
      | apply List.Sublist.cons₂
      | apply List.Sublist.cons
  · intro exe a
    exact ⟨[exe, "-m", a.model, "--port", toString a.port, "-ngl", toString a.ngl],
      ["-b", toString a.batchSize, "-ub", toString a.ubatchSize,
       "-ctk", a.cacheTypeK, "-ctv", a.cacheTypeV] ++ chatToggles a,
      by simp [chatCommand, chatCommandBase]⟩
  · intro exe a hv
    refine ⟨?_, ?_, ?_⟩
    · intro f hf
      have hc := chatCommand_count exe a f
      rw [hv f (List.mem_append_left _ hf)] at hc
      fin_cases hf <;>
        rw [hc, chatToggles_count_eq_zero _ _ (by decide) (by decide)] <;> decide
    · have hc := chatCommand_count exe a "-fa"
      rw [hv "-fa" (by decide), (by decide : List.count "-fa" chatFlags = 0),
        chatToggles_count_fa] at hc
      simpa using hc
    · have hc := chatCommand_count exe a "--mlock"
      rw [hv "--mlock" (by decide), (by decide : List.count "--mlock" chatFlags = 0),
        chatToggles_count_mlock] at hc
      simpa using hc
  · intro d a
    simp [ocrCommand, ocrCommandBase, ocrToggles, ocrDocumentedArgv]
  · intro d a
    rfl
  · intro d a
    refine List.Sublist.trans ?_ (List.sublist_append_left _ (ocrToggles d))
    simp only [ocrCommandBase, ocrFlags]
    repeat
      first
      | exact List.nil_sublist _
      | apply List.Sublist.cons₂
      | apply List.Sublist.cons
  · intro d a
    exact ⟨[d.exe, "-m", a.model, "--mmproj", a.mmproj, "--image", a.image,
       "-p", d.prompt, "-ngl", toString a.ngl, "--threads", toString a.threads],
      ["-n", toString a.nPredict, "--temp", a.temp,
       "-ctk", a.cacheTypeK, "-ctv", a.cacheTypeV] ++ ocrToggles d,
      by simp [ocrCommand, ocrCommandBase]⟩
  · intro d a hv
    refine ⟨?_, ?_, ?_⟩
    · intro f hf
      have hc := ocrCommand_count d a f
      rw [hv f (List.mem_append_left _ hf)] at hc
      fin_cases hf <;>
        rw [hc, ocrToggles_count_eq_zero _ _ (by decide) (by decide)] <;> decide
    · have hc := ocrCommand_count d a "-fa"
      rw [hv "-fa" (by decide), (by decide : List.count "-fa" ocrFlags = 0),
        ocrToggles_count_fa] at hc
      simpa using hc
    · have hc := ocrCommand_count d a "--mlock"
      rw [hv "--mlock" (by decide), (by decide : List.count "--mlock" ocrFlags = 0),
        ocrToggles_count_mlock] at hc
      simpa using hc

/-- Witness for C2: a concrete configuration (context size 16384,
flash-attention on, mlock off) renders the documented vector, with "-c"
followed by the literal "16384", each flag once, and "--mlock" absent. -/
theorem claim_C2_witness :
    chatCommand "llama-server" chatArgsEx = chatDocumentedArgv "llama-server" chatArgsEx ∧
    chatCommand "llama-server" chatArgsEx =
      ["llama-server", "-m", "m.gguf", "--port", "4000", "-ngl", "48", "-c", "16384",
       "-b", "512", "-ub", "128", "-ctk", "q5_1", "-ctv", "q5_1", "-fa"] ∧
    List.count "-c" (chatCommand "llama-server" chatArgsEx) = 1 ∧
    List.count "-fa" (chatCommand "llama-server" chatArgsEx) = 1 ∧
    List.count "--mlock" (chatCommand "llama-server" chatArgsEx) = 0 ∧
    List.Sublist chatFlags (chatCommand "llama-server" chatArgsEx) := by
  have hc := claim_C2_argv_documented_order_each_flag_once.2.2.2.2.1
    "llama-server" chatArgsEx (by decide)
  refine ⟨claim_C2_argv_documented_order_each_flag_once.1 "llama-server" chatArgsEx,
    by decide, hc.1 "-c" (by decide), ?_, ?_,
    claim_C2_argv_documented_order_each_flag_once.2.2.1 "llama-server" chatArgsEx⟩
  · rw [hc.2.1]; decide
  · rw [hc.2.2]; decide

/-- C8: every option of every launcher configuration is resolved by
layering three sources in increasing precedence — built-in default,
environment variable, explicit CLI flag. (The OCR launchers define no
CLI flag for the two toggles, rendered here by a CLI source fixed to
none; the GPU-watch launcher has no options at all.) -/
theorem claim_C8_three_layer_option_resolution :
    (∀ (env : String → Option String) (sd : String) (d : ChatDefaults) (c : ChatCli),
      chatDefaults? env sd = some d →
        Layered3 c.model (env "MODEL_PATH") some
          (dataDir env sd ++ "/gemma-3-4b-it-Q5_K_M.gguf") (resolveChat d c).model ∧
        Layered3 c.port (env "SERVER_PORT") pyInt? 4000 (resolveChat d c).port ∧
        Layered3 c.ngl (env "N_GPU_LAYERS") pyInt? 48 (resolveChat d c).ngl ∧
        Layered3 c.contextSize (env "CONTEXT_SIZE") pyInt? 8192
          (resolveChat d c).contextSize ∧
        Layered3 c.batchSize (env "BATCH_SIZE") pyInt? 512
          (resolveChat d c).batchSize ∧
        Layered3 c.ubatchSize (env "UBATCH_SIZE") pyInt? 128
          (resolveChat d c).ubatchSize ∧
        Layered3 c.cacheTypeK (env "CACHE_TYPE_K") some "q5_1"
          (resolveChat d c).cacheTypeK ∧
        Layered3 c.cacheTypeV (env "CACHE_TYPE_V") some "q5_1"
          (resolveChat d c).cacheTypeV ∧
        Layered3 c.flashAttn (env "FLASH_ATTN") (fun s => some (truthy s)) true
          (resolveChat d c).flashAttn ∧
        Layered3 c.mlock (env "MLOCK") (fun s => some (truthy s)) true
          (resolveChat d c).mlock) ∧
    (∀ (env : String → Option String) (sd nd pv pdf : String) (ndv : Int)
        (d : OcrDefaults) (c : OcrCli),
      ocrDefaults? env sd nd pv pdf = some d →
      pyInt? nd = some ndv →
        Layered3 c.ngl (env "N_GPU_LAYERS") pyInt? 34 (resolveOcr d c).ngl ∧
        Layered3 c.threads (env "THREADS") pyInt? 3 (resolveOcr d c).threads ∧
        Layered3 c.contextSize (env "CONTEXT_SIZE") pyInt? 16384
          (resolveOcr d c).contextSize ∧
        Layered3 c.nPredict (env "N_PREDICT") pyInt? ndv (resolveOcr d c).nPredict ∧
        Layered3 c.temp (env "TEMPERATURE") (fun s => some (pyFloatStr s))
          (pyFloatStr "0.3") (resolveOcr d c).temp ∧
        Layered3 c.cacheTypeK (env "CACHE_TYPE_K") some "q4_1"
          (resolveOcr d c).cacheTypeK ∧
        Layered3 c.cacheTypeV (env "CACHE_TYPE_V") some "q4_1"
          (resolveOcr d c).cacheTypeV ∧
        Layered3 c.model (env "MODEL_PATH") some
          (dataDir env sd ++ "/gemma-3-4b-it-Q5_K_M.gguf") (resolveOcr d c).model ∧
        Layered3 c.mmproj (env "MMPROJ_PATH") some
          (dataDir env sd ++ "/mmproj-BF16.gguf") (resolveOcr d c).mmproj ∧
        Layered3 c.image (env "IMAGE_PATH") some
          (dataDir env sd ++ "/temp.png") (resolveOcr d c).image ∧
        Layered3 (none : Option Bool) (env "FLASH_ATTN")
          (fun s => some (truthy s)) true d.flashAttn ∧
        Layered3 (none : Option Bool) (env "MLOCK")
          (fun s => some (truthy s)) true d.mlock) := by
  constructor
  · intro env sd d c hd
    obtain ⟨e1, e2, e3, e4, e5, e6, e7, e8, e9, e10, e11⟩ :=
      chatDefaults?_spec env sd d hd
    have t1 : truthy "1" = true := by decide
    have q1 : pyInt? "4000" = some 4000 := by decide
    have q2 : pyInt? "48" = some 48 := by decide
    have q3 : pyInt? "8192" = some 8192 := by decide
    have q4 : pyInt? "512" = some 512 := by decide
    have q5 : pyInt? "128" = some 128 := by decide
    simp only [Layered3]
    repeat' apply And.intro
    all_goals intros
    all_goals simp_all [resolveChat, envGet]
  · intro env sd nd pv pdf ndv d c hd hnd
    obtain ⟨e1, e2, e3, e4, e5, e6, e7, e8, e9, e10, e11, e12, e13, e14⟩ :=
      ocrDefaults?_spec env sd nd pv pdf d hd
    have t1 : truthy "1" = true := by decide
    have q1 : pyInt? "34" = some 34 := by decide
    have q2 : pyInt? "3" = some 3 := by decide
    have q3 : pyInt? "16384" = some 16384 := by decide
    simp only [Layered3]
    repeat' apply And.intro
    all_goals intros
    all_goals simp_all [resolveOcr, envGet, pyFloatStr]

/-- Witness for C8: the port option takes the built-in default 4000 in
an empty environment, the environment value 7777 under SERVER_PORT=7777,
and the CLI value 9999 when --port 9999 is given on top of that same
environment; an OCR flag option likewise takes its CLI value. -/
theorem claim_C8_witness :
    chatDefaults? envNone "S" = some chatDEnv0 ∧
    (resolveChat chatDEnv0 chatCliNone).port = 4000 ∧
    chatDefaults? envPort "S" = some chatDPort ∧
    (resolveChat chatDPort chatCliNone).port = 7777 ∧
    (resolveChat chatDPort chatCliPort).port = 9999 ∧
    (resolveOcr ocrD9 ocrCli2).ngl = 99 ∧
    (resolveOcr ocrD9 ocrCliNone).ngl = 34 := by
  refine ⟨by decide, ?_, by decide, ?_, ?_, ?_, ?_⟩
  · exact ((claim_C8_three_layer_option_resolution.1 envNone "S" chatDEnv0 chatCliNone
      (by decide)).2.1).2.2 rfl rfl
  · exact ((claim_C8_three_layer_option_resolution.1 envPort "S" chatDPort chatCliNone
      (by decide)).2.1).2.1 "7777" 7777 rfl (by decide) (by decide)
  · exact ((claim_C8_three_layer_option_resolution.1 envPort "S" chatDPort chatCliPort
      (by decide)).2.1).1 9999 rfl
  · exact ((claim_C8_three_layer_option_resolution.2 env9 "S" "1024" "METADATA_PROMPT"
      metadataPromptDefault 1024 ocrD9 ocrCli2 (by decide) (by decide)).1).1 99 rfl
  · exact ((claim_C8_three_layer_option_resolution.2 env9 "S" "1024" "METADATA_PROMPT"
      metadataPromptDefault 1024 ocrD9 ocrCliNone (by decide) (by decide)).1).2.2 rfl
      (by decide)

end Launchers
